import Mathlib

/-!
Verification of the EVSE Master UDP integration core
(`custom_components/evsemasterudp/evse_client.py` and
`custom_components/evsemasterudp/__init__.py`).

Shallow embedding conventions:
* Timestamps (`datetime.now()`) are modelled as `Int` microseconds, matching
  Python `datetime`s integer microsecond resolution; a `timedelta` of
  `p` minutes is `p * 60000000` microseconds.
* Python dicts keyed by serial (`_fast_change_protection`,
  `_last_charge_change`, the communicator registry) are modelled as
  `String → Option _` maps.
* The external protocol layer (`protocol.py`, not part of the core) is
  opaque: the result of each awaited link call (`charge_start`,
  `charge_stop`, `login`, ...) enters the model as an explicit boolean
  parameter, and the current wall-clock time as an explicit `Int` parameter.
* Numeric device fields whose concrete protocol types are external are
  modelled as `Int`.
-/

/-- Device identity block (`evse.info`), as read by `_evse_to_dict` and
`start_charging`. -/
structure EVSEInfo where
  serial : String
  ip : String
  port : Int
  brand : String
  model : String
  hardware_version : String
  software_version : String
  max_power : Int
  max_electricity : Int
  phases : Int
deriving DecidableEq

/-- Device configuration block (`evse.config`). `name` is `Option String`
because Python code treats it as possibly `None` (line 84 uses
`evse.config.name or 'EVSEMaster'`). `_evse_to_dict` dereferences
`evse.config` unconditionally, so the block itself is always present. -/
structure EVSEConfig where
  name : Option String
  max_electricity : Int
  temperature_unit : String
deriving DecidableEq

/-- Electrical state snapshot (`evse.state`), optional on the device. -/
structure ElectricalState where
  current_power : Int
  l1_voltage : Int
  l2_voltage : Int
  l3_voltage : Int
  l1_electricity : Int
  l2_electricity : Int
  l3_electricity : Int
  inner_temp : Int
  outer_temp : Int
  gun_state : Int
  output_state : Int
  errors : List String
deriving DecidableEq

/-- Charging session (`evse.current_charge`), optional on the device. -/
structure ChargeSession where
  charge_kwh : Int
  charge_id : String
  start_date : Int
  duration_seconds : Int
  current_state : Int
deriving DecidableEq

/-- A device object as exposed to the client by the communicator. The
method results `is_online()`, `is_logged_in()` and `get_meta_state()` are
modelled as fields, since the client only reads them. -/
structure EVSE where
  info : EVSEInfo
  config : EVSEConfig
  state : Option ElectricalState
  current_charge : Option ChargeSession
  last_seen : Int
  online : Bool
  logged_in : Bool
  meta_state : String
deriving DecidableEq

/-- The mutable per-client guard state of `EVSEClient`:
`_fast_change_protection` (serial → minutes) and `_last_charge_change`
(serial → timestamp in microseconds). -/
structure ClientState where
  fastChangeProtection : String → Option Nat
  lastChargeChange : String → Option Int

/-- Microseconds in one minute: `timedelta(minutes=p)` is `p * 60000000`
microseconds. -/
def MICROS_PER_MINUTE : Int := 60000000

/-- The label compared against by `stop_charging` line 208. -/
def CHARGING_LABEL : String := "CHARGING"

/-- Fallback display name, source line 84: `evse.config.name or 'EVSEMaster'`. -/
def FALLBACK_NAME : String := "EVSEMaster"

/-- `EVSEClient.get_fast_change_protection` (lines 248-254):
`self._fast_change_protection.get(serial, 1)` — default 1 minute. -/
def get_fast_change_protection (st : ClientState) (serial : String) : Nat :=
  (st.fastChangeProtection serial).getD 1

/-- `EVSEClient.set_fast_change_protection` (lines 243-246):
`self._fast_change_protection[serial] = minutes`. -/
def set_fast_change_protection (st : ClientState) (serial : String)
    (minutes : Nat) : ClientState :=
  { st with fastChangeProtection :=
      fun s => if s = serial then some minutes else st.fastChangeProtection s }

/-- `EVSEClient._record_charge_state_change` (lines 284-287):
`self._last_charge_change[serial] = datetime.now()`. -/
def record_charge_state_change (st : ClientState) (serial : String)
    (now : Int) : ClientState :=
  { st with lastChargeChange :=
      fun s => if s = serial then some now else st.lastChargeChange s }

/-- `EVSEClient._can_start_charge` (lines 256-282). A pure read of the guard
state: the source method only reads `_fast_change_protection` and
`_last_charge_change` (and logs), which the `Bool` return type reflects. -/
def can_start_charge (st : ClientState) (now : Int) (serial : String) : Bool :=
  let protection_minutes := get_fast_change_protection st serial
  if protection_minutes = 0 then
    true
  else
    match st.lastChargeChange serial with
    | none => true
    | some last_change =>
      let time_since_last := now - last_change
      let min_interval := (protection_minutes : Int) * MICROS_PER_MINUTE
      if time_since_last < min_interval then false else true

/-- The amperage resolution of `EVSEClient.start_charging` lines 186-195,
factored as a function of the supplied amperage, the configured max
electricity (`evse.config.max_electricity`) and the advertised device max
electricity (`evse.info.max_electricity`). -/
def resolve_amps (amps : Option Int) (configured deviceMax : Int) : Int :=
  match amps with
  | some a => a
  | none =>
    if configured > 0 then
      configured
    else
      let max_amps := if deviceMax > 0 then deviceMax else 32
      min max_amps 16

/-- Outcome of `start_charging`: the returned boolean, what (if anything)
was forwarded to the device link (`charge_start(amps, single_phase)`), and
the client guard state afterwards. -/
structure StartOutcome where
  success : Bool
  forwarded : Option (Int × Bool)
  state : ClientState

/-- `EVSEClient.start_charging` (lines 173-198). `registry` models
`self.communicator.get_evse`; `startResult` is the awaited result of
`evse.charge_start`. -/
def start_charging (registry : String → Option EVSE) (startResult : Bool)
    (now : Int) (st : ClientState) (serial : String) (amps : Option Int)
    (single_phase : Bool) : StartOutcome :=
  if can_start_charge st now serial = false then
    ⟨false, none, st⟩
  else
    match registry serial with
    | none => ⟨false, none, st⟩
    | some evse =>
      let a := resolve_amps amps evse.config.max_electricity
        evse.info.max_electricity
      ⟨startResult, some (a, single_phase), st⟩

/-- Outcome of `stop_charging`: the returned boolean, whether the stop was
forwarded to the device link (`charge_stop`), and the guard state after. -/
structure StopOutcome where
  success : Bool
  forwarded : Bool
  state : ClientState

/-- `EVSEClient.stop_charging` (lines 200-214). `stopResult` is the awaited
result of `evse.charge_stop()`. -/
def stop_charging (registry : String → Option EVSE) (stopResult : Bool)
    (now : Int) (st : ClientState) (serial : String) : StopOutcome :=
  match registry serial with
  | none => ⟨false, false, st⟩
  | some evse =>
    let was_charging := evse.meta_state == CHARGING_LABEL
    let result := stopResult
    if result && was_charging then
      ⟨result, true, record_charge_state_change st serial now⟩
    else
      ⟨result, true, st⟩

/-- Claim C1: with no supplied amperage, `start_charging` resolves the
amperage to the configured max electricity when positive, otherwise to
`min(m, 16)` with `m` the advertised device max if positive and 32 if not;
a supplied amperage passes through; including the four concrete spec cases. -/
theorem resolve_amps_spec :
    (∀ c d : Int, 0 < c → resolve_amps none c d = c) ∧
    (∀ c d : Int, ¬ 0 < c →
      resolve_amps none c d = min (if 0 < d then d else 32) 16) ∧
    (∀ a c d : Int, resolve_amps (some a) c d = a) ∧
    resolve_amps none 10 32 = 10 ∧
    resolve_amps none 0 20 = 16 ∧
    resolve_amps none 0 0 = 16 ∧
    (∀ c d : Int, resolve_amps (some 25) c d = 25) := by
  refine ⟨?_, ?_, ?_, by decide, by decide, by decide, ?_⟩ <;>
    intro c d <;> simp [resolve_amps]
  · intro h
    simp [h]
  · intro h
    simp [show ¬ c > 0 from not_lt_of_le h]

/-- Witness for C1. -/
theorem resolve_amps_spec_witness :
    (0 < (10 : Int) ∧ resolve_amps none 10 32 = 10) ∧
    (¬ 0 < (0 : Int) ∧
      resolve_amps none 0 20 = min (if 0 < (20 : Int) then 20 else 32) 16) ∧
    resolve_amps (some 7) 3 4 = 7 := by
  refine ⟨⟨by decide, resolve_amps_spec.1 10 32 (by decide)⟩,
    ⟨by decide, resolve_amps_spec.2.1 0 20 (by decide)⟩,
    resolve_amps_spec.2.2.1 7 3 4⟩

/-- Claim C2: for a known device, `stop_charging` always forwards the stop to
the link (never gated by the cooldown guard: the result is `stopResult`
whatever the guard state), and it records a stop timestamp exactly when the
forwarded stop succeeds and the meta-state was `CHARGING`; otherwise the
guard state is left unchanged. -/
theorem stop_charging_spec (registry : String → Option EVSE)
    (stopResult : Bool) (now : Int) (st : ClientState) (serial : String)
    (evse : EVSE) (h : registry serial = some evse) :
    (stop_charging registry stopResult now st serial).forwarded = true ∧
    (stop_charging registry stopResult now st serial).success = stopResult ∧
    ((stopResult = true ∧ evse.meta_state = CHARGING_LABEL) →
      (stop_charging registry stopResult now st serial).state =
        record_charge_state_change st serial now ∧
      (stop_charging registry stopResult now st serial).state.lastChargeChange
        serial = some now) ∧
    (¬ (stopResult = true ∧ evse.meta_state = CHARGING_LABEL) →
      (stop_charging registry stopResult now st serial).state = st) := by
  simp only [stop_charging, h]
  by_cases hr : stopResult = true
  · by_cases hm : evse.meta_state = CHARGING_LABEL
    · simp [hr, hm, record_charge_state_change]
    · simp only [hr, hm]
      simp [show (evse.meta_state == CHARGING_LABEL) = false by
        simpa using hm]
  · simp only [Bool.not_eq_true] at hr
    simp [hr]

/-- A concrete device used by the witness theorems. -/
def testDevice : EVSE where
  info :=
    { serial := "SN001"
      ip := "192.168.1.5"
      port := 28376
      brand := "Morec"
      model := "M1"
      hardware_version := "1.0"
      software_version := "2.0"
      max_power := 7400
      max_electricity := 32
      phases := 1 }
  config :=
    { name := none
      max_electricity := 0
      temperature_unit := "C" }
  state := none
  current_charge := none
  last_seen := 0
  online := true
  logged_in := true
  meta_state := CHARGING_LABEL

/-- A concrete one-device registry used by the witness theorems. -/
def testRegistry : String → Option EVSE :=
  fun s => if s = testDevice.info.serial then some testDevice else none

/-- A concrete guard state used by the witness theorems. -/
def emptyClientState : ClientState where
  fastChangeProtection := fun _ => none
  lastChargeChange := fun _ => none

/-- Witness for C2. -/
theorem stop_charging_spec_witness :
    testRegistry testDevice.info.serial = some testDevice ∧
    (stop_charging testRegistry true 5 emptyClientState
      testDevice.info.serial).forwarded = true := by
  refine ⟨by decide, ?_⟩
  exact (stop_charging_spec testRegistry true 5 emptyClientState
    testDevice.info.serial testDevice (by decide)).1

/-- Claim C3: with positive protection and a recorded stop at `t0`,
`can_start_charge` is false strictly before `t0` plus the protection window
and true at and after the boundary; it is true immediately when the
protection is zero or no stop is recorded. The source reads the guard state
and returns a boolean, which the pure `Bool`-valued embedding reflects. -/
theorem can_start_charge_boundary (st : ClientState) (now : Int)
    (serial : String) :
    (get_fast_change_protection st serial = 0 →
      can_start_charge st now serial = true) ∧
    (st.lastChargeChange serial = none →
      can_start_charge st now serial = true) ∧
    (∀ t0 : Int, st.lastChargeChange serial = some t0 →
      0 < get_fast_change_protection st serial →
      (can_start_charge st now serial = true ↔
        t0 + (get_fast_change_protection st serial : Int) * MICROS_PER_MINUTE
          ≤ now)) := by
  refine ⟨fun h0 => ?_, fun hn => ?_, fun t0 ht hp => ?_⟩
  · simp [can_start_charge, h0]
  · by_cases h0 : get_fast_change_protection st serial = 0
    · simp [can_start_charge, h0]
    · simp [can_start_charge, h0, hn]
  · have h0 : ¬ get_fast_change_protection st serial = 0 := by omega
    simp only [can_start_charge, h0, ht, if_false]
    constructor
    · intro h
      by_contra hc
      simp only [not_le] at hc
      have : now - t0 <
          (get_fast_change_protection st serial : Int) * MICROS_PER_MINUTE :=
        by omega
      simp [this] at h
    · intro h
      have : ¬ now - t0 <
          (get_fast_change_protection st serial : Int) * MICROS_PER_MINUTE :=
        by omega
      simp [this]

/-- Witness for C3. -/
theorem can_start_charge_boundary_witness :
    ((⟨fun _ => some 2, fun _ => some 10⟩ : ClientState).lastChargeChange
        FALLBACK_NAME = some 10) ∧
    (0 < get_fast_change_protection
        (⟨fun _ => some 2, fun _ => some 10⟩ : ClientState) FALLBACK_NAME) ∧
    (can_start_charge (⟨fun _ => some 2, fun _ => some 10⟩ : ClientState)
        120000010 FALLBACK_NAME = true ↔
      10 + ((get_fast_change_protection
        (⟨fun _ => some 2, fun _ => some 10⟩ : ClientState) FALLBACK_NAME :
          Int)) * MICROS_PER_MINUTE ≤ 120000010) := by
  refine ⟨by decide, by decide, ?_⟩
  exact (can_start_charge_boundary
    (⟨fun _ => some 2, fun _ => some 10⟩ : ClientState) 120000010
    FALLBACK_NAME).2.2 10 (by decide) (by decide)

/-- Claim C4: `start_charging` fails closed without forwarding when the
cooldown guard refuses, and in every case it leaves the whole guard state
(all protection minutes and all stop timestamps) unchanged. -/
theorem start_charging_frame (registry : String → Option EVSE)
    (startResult : Bool) (now : Int) (st : ClientState) (serial : String)
    (amps : Option Int) (single_phase : Bool) :
    (start_charging registry startResult now st serial amps
      single_phase).state = st ∧
    (can_start_charge st now serial = false →
      (start_charging registry startResult now st serial amps
        single_phase).success = false ∧
      (start_charging registry startResult now st serial amps
        single_phase).forwarded = none) := by
  constructor
  · simp only [start_charging]
    by_cases h : can_start_charge st now serial = false
    · simp [h]
    · simp only [h, if_false]
      cases registry serial <;> simp
  · intro h
    simp [start_charging, h]

/-- Witness for C4. -/
theorem start_charging_frame_witness :
    can_start_charge (⟨fun _ => some 2, fun _ => some 10⟩ : ClientState) 11
      FALLBACK_NAME = false ∧
    (start_charging (fun _ => none) true 11
      (⟨fun _ => some 2, fun _ => some 10⟩ : ClientState) FALLBACK_NAME none
      false).success = false := by
  refine ⟨by decide, ?_⟩
  exact ((start_charging_frame (fun _ => none) true 11
    (⟨fun _ => some 2, fun _ => some 10⟩ : ClientState) FALLBACK_NAME none
    false).2 (by decide)).1

/-- Claim C8: whenever the resolved protection is zero — in particular right
after `set_fast_change_protection serial 0` — `can_start_charge` returns
true, independent of any recorded stop timestamp. -/
theorem protection_zero_allows (st : ClientState) (now : Int)
    (serial : String) :
    (get_fast_change_protection st serial = 0 →
      can_start_charge st now serial = true) ∧
    can_start_charge (set_fast_change_protection st serial 0) now serial =
      true := by
  constructor
  · intro h
    simp [can_start_charge, h]
  · simp [can_start_charge, get_fast_change_protection,
      set_fast_change_protection]

/-- Witness for C8. -/
theorem protection_zero_allows_witness :
    get_fast_change_protection
      (⟨fun _ => some 0, fun _ => some 10⟩ : ClientState) FALLBACK_NAME = 0 ∧
    can_start_charge (⟨fun _ => some 0, fun _ => some 10⟩ : ClientState) 11
      FALLBACK_NAME = true := by
  refine ⟨by decide, ?_⟩
  exact (protection_zero_allows
    (⟨fun _ => some 0, fun _ => some 10⟩ : ClientState) 11 FALLBACK_NAME).1
    (by decide)

/-- Heterogeneous value carried by one published record entry. -/
inductive Value where
  | vInt : Int → Value
  | vStr : String → Value
  | vBool : Bool → Value
  | vTime : Int → Value
  | vOptTime : Option Int → Value
  | vErrList : List String → Value
deriving DecidableEq

/-- Python truthiness of `s or fallback` for an optional string: the
fallback is used when `s` is `None` or the empty string. -/
def py_or_string (s : Option String) (fallback : String) : String :=
  match s with
  | none => fallback
  | some v => if v = "" then fallback else v

/-- `EVSEClient._evse_to_dict` (lines 63-140). The Python dict is modelled
as an insertion-ordered association list; the three `data.update` blocks
have pairwise disjoint key sets, so updating is appending. Total by
construction (a Lean function), matching the source, which only reads
fields and never raises. -/
def evse_to_dict (evse : EVSE) : List (String × Value) :=
  [("serial", .vStr evse.info.serial),
   ("ip", .vStr evse.info.ip),
   ("port", .vInt evse.info.port),
   ("last_seen", .vTime evse.last_seen),
   ("online", .vBool evse.online),
   ("logged_in", .vBool evse.logged_in),
   ("state", .vStr evse.meta_state),
   ("brand", .vStr evse.info.brand),
   ("model", .vStr evse.info.model),
   ("hardware_version", .vStr evse.info.hardware_version),
   ("software_version", .vStr evse.info.software_version),
   ("max_power", .vInt evse.info.max_power),
   ("max_electricity", .vInt evse.info.max_electricity),
   ("phases", .vInt evse.info.phases),
   ("name", .vStr (py_or_string evse.config.name FALLBACK_NAME)),
   ("configured_max_electricity", .vInt evse.config.max_electricity),
   ("temperature_unit", .vStr evse.config.temperature_unit)]
  ++ (match evse.state with
      | some s =>
        [("current_power", .vInt s.current_power),
         ("voltage_l1", .vInt s.l1_voltage),
         ("voltage_l2", .vInt s.l2_voltage),
         ("voltage_l3", .vInt s.l3_voltage),
         ("current_l1", .vInt s.l1_electricity),
         ("current_l2", .vInt s.l2_electricity),
         ("current_l3", .vInt s.l3_electricity),
         ("temperature_inner", .vInt s.inner_temp),
         ("temperature_outer", .vInt s.outer_temp),
         ("gun_state", .vInt s.gun_state),
         ("output_state", .vInt s.output_state),
         ("errors", .vErrList s.errors)]
      | none =>
        [("current_power", .vInt 0),
         ("voltage_l1", .vInt 0),
         ("voltage_l2", .vInt 0),
         ("voltage_l3", .vInt 0),
         ("current_l1", .vInt 0),
         ("current_l2", .vInt 0),
         ("current_l3", .vInt 0),
         ("temperature_inner", .vInt 0),
         ("temperature_outer", .vInt 0),
         ("gun_state", .vInt 0),
         ("output_state", .vInt 0),
         ("errors", .vErrList [])])
  ++ (match evse.current_charge with
      | some c =>
        [("charge_kwh", .vInt c.charge_kwh),
         ("charge_id", .vStr c.charge_id),
         ("start_date", .vOptTime (some c.start_date)),
         ("duration_seconds", .vInt c.duration_seconds),
         ("charge_state", .vInt c.current_state)]
      | none =>
        [("charge_kwh", .vInt 0),
         ("charge_id", .vStr ""),
         ("start_date", .vOptTime none),
         ("duration_seconds", .vInt 0),
         ("charge_state", .vInt 0)])

/-- The documented published key set, spec section 6, in publication order. -/
def RECORD_KEYS : List String :=
  ["serial", "ip", "port", "last_seen", "online", "logged_in", "state",
   "brand", "model", "hardware_version", "software_version", "max_power",
   "max_electricity", "phases", "name", "configured_max_electricity",
   "temperature_unit", "current_power", "voltage_l1", "voltage_l2",
   "voltage_l3", "current_l1", "current_l2", "current_l3",
   "temperature_inner", "temperature_outer", "gun_state", "output_state",
   "errors", "charge_kwh", "charge_id", "start_date", "duration_seconds",
   "charge_state"]

/-- Claim C5: the projection is total by construction, and for a device with
no electrical snapshot and no charging session it produces exactly the
documented key set with the documented defaults (zeros, empty error list,
empty charge id, absent start date) and no missing keys. -/
theorem evse_to_dict_default_block (evse : EVSE) (hs : evse.state = none)
    (hc : evse.current_charge = none) :
    (evse_to_dict evse).map Prod.fst = RECORD_KEYS ∧
    List.lookup ("current_power") (evse_to_dict evse) = some (.vInt 0) ∧
    List.lookup ("voltage_l1") (evse_to_dict evse) = some (.vInt 0) ∧
    List.lookup ("voltage_l2") (evse_to_dict evse) = some (.vInt 0) ∧
    List.lookup ("voltage_l3") (evse_to_dict evse) = some (.vInt 0) ∧
    List.lookup ("current_l1") (evse_to_dict evse) = some (.vInt 0) ∧
    List.lookup ("current_l2") (evse_to_dict evse) = some (.vInt 0) ∧
    List.lookup ("current_l3") (evse_to_dict evse) = some (.vInt 0) ∧
    List.lookup ("temperature_inner") (evse_to_dict evse) = some (.vInt 0) ∧
    List.lookup ("temperature_outer") (evse_to_dict evse) = some (.vInt 0) ∧
    List.lookup ("gun_state") (evse_to_dict evse) = some (.vInt 0) ∧
    List.lookup ("output_state") (evse_to_dict evse) = some (.vInt 0) ∧
    List.lookup ("errors") (evse_to_dict evse) = some (.vErrList []) ∧
    List.lookup ("charge_kwh") (evse_to_dict evse) = some (.vInt 0) ∧
    List.lookup ("charge_id") (evse_to_dict evse) = some (.vStr "") ∧
    List.lookup ("start_date") (evse_to_dict evse) = some (.vOptTime none) ∧
    List.lookup ("duration_seconds") (evse_to_dict evse) = some (.vInt 0) ∧
    List.lookup ("charge_state") (evse_to_dict evse) = some (.vInt 0) := by
  unfold evse_to_dict
  rw [hs, hc]
  exact ⟨rfl, rfl, rfl, rfl, rfl, rfl, rfl, rfl, rfl, rfl, rfl, rfl, rfl,
    rfl, rfl, rfl, rfl, rfl⟩

/-- Witness for C5. -/
theorem evse_to_dict_default_block_witness :
    testDevice.state = none ∧ testDevice.current_charge = none ∧
    (evse_to_dict testDevice).map Prod.fst = RECORD_KEYS := by
  refine ⟨by decide, by decide, ?_⟩
  exact (evse_to_dict_default_block testDevice (by decide) (by decide)).1

/-- Claim C10: when the configured display name is absent or empty, the
published `name` field is the fallback string, not the empty default. -/
theorem name_fallback (evse : EVSE)
    (h : evse.config.name = none ∨ evse.config.name = some "") :
    List.lookup ("name") (evse_to_dict evse) =
      some (Value.vStr FALLBACK_NAME) := by
  have hv : py_or_string evse.config.name FALLBACK_NAME = FALLBACK_NAME := by
    rcases h with h | h <;> simp [py_or_string, h]
  unfold evse_to_dict
  rw [hv]
  rcases hst : evse.state with _ | s <;>
    rcases hch : evse.current_charge with _ | c <;> rfl

/-- Witness for C10. -/
theorem name_fallback_witness :
    (testDevice.config.name = none ∨ testDevice.config.name = some "") ∧
    List.lookup ("name") (evse_to_dict testDevice) =
      some (Value.vStr FALLBACK_NAME) := by
  refine ⟨Or.inl (by decide), ?_⟩
  exact name_fallback testDevice (Or.inl (by decide))

/-- `EVSEClient.login` (lines 164-171): false when the serial is unknown,
else the result of the awaited link call `evse.login(password)`. -/
def login (registry : String → Option EVSE) (linkResult : Bool)
    (serial password : String) : Bool :=
  match registry serial with
  | none => false
  | some _ => linkResult

/-- `EVSEClient.set_max_current` (lines 216-223). -/
def set_max_current (registry : String → Option EVSE) (linkResult : Bool)
    (serial : String) (amps : Int) : Bool :=
  match registry serial with
  | none => false
  | some _ => linkResult

/-- `EVSEClient.set_name` (lines 225-232). -/
def set_name (registry : String → Option EVSE) (linkResult : Bool)
    (serial nm : String) : Bool :=
  match registry serial with
  | none => false
  | some _ => linkResult

/-- `EVSEClient.sync_time` (lines 234-241). -/
def sync_time (registry : String → Option EVSE) (linkResult : Bool)
    (serial : String) : Bool :=
  match registry serial with
  | none => false
  | some _ => linkResult

/-- `EVSEClient.get_evse` (lines 150-155). -/
def get_evse (registry : String → Option EVSE) (serial : String) :
    Option (List (String × Value)) :=
  match registry serial with
  | none => none
  | some evse => some (evse_to_dict evse)

/-- Claim C9: every facade operation on an identifier absent from the
registry returns its failure value (false, or none for `get_evse`) and
leaves the guard state untouched; in the embedding each operation is a
total function, mirroring the source paths, which return instead of
raising. -/
theorem unknown_device_fails (registry : String → Option EVSE)
    (serial : String) (h : registry serial = none) (linkResult : Bool)
    (now : Int) (st : ClientState) (password : String) (amps : Option Int)
    (single_phase : Bool) (maxAmps : Int) (nm : String) :
    login registry linkResult serial password = false ∧
    (start_charging registry linkResult now st serial amps
      single_phase).success = false ∧
    (start_charging registry linkResult now st serial amps
      single_phase).forwarded = none ∧
    (stop_charging registry linkResult now st serial).success = false ∧
    (stop_charging registry linkResult now st serial).state = st ∧
    set_max_current registry linkResult serial maxAmps = false ∧
    set_name registry linkResult serial nm = false ∧
    sync_time registry linkResult serial = false ∧
    get_evse registry serial = none := by
  have hstart : start_charging registry linkResult now st serial amps
      single_phase = ⟨false, none, st⟩ := by
    unfold start_charging
    by_cases hg : can_start_charge st now serial = false
    · simp [hg]
    · simp [hg, h]
  refine ⟨?_, ?_, ?_, ?_, ?_, ?_, ?_, ?_, ?_⟩ <;>
    simp [login, hstart, stop_charging, set_max_current, set_name,
      sync_time, get_evse, h]

/-- Witness for C9. -/
theorem unknown_device_fails_witness :
    testRegistry CHARGING_LABEL = none ∧
    login testRegistry true CHARGING_LABEL FALLBACK_NAME = false ∧
    get_evse testRegistry CHARGING_LABEL = none := by
  have h : testRegistry CHARGING_LABEL = none := by decide
  have hall := unknown_device_fails testRegistry CHARGING_LABEL h true 0
    emptyClientState FALLBACK_NAME none false 16 FALLBACK_NAME
  exact ⟨h, hall.1, hall.2.2.2.2.2.2.2.2⟩

/-- The mapping published by the coordinator: serial → projected record. -/
abbrev DeviceMapping := List (String × List (String × Value))

/-- `EVSEClient.get_all_evses` (lines 157-162): projects every device in the
communicator registry. -/
def get_all_evses (devices : List (String × EVSE)) : DeviceMapping :=
  devices.map (fun p => (p.1, evse_to_dict p.2))

/-- The coordinator's stored state. The Home Assistant
`DataUpdateCoordinator` base class keeps exactly the last value returned by
`_async_update_data` in `self.data` (`none` before the first refresh); the
integration subclass adds no field of its own. -/
structure CoordinatorState where
  data : Option DeviceMapping
deriving DecidableEq

/-- `EVSEDataUpdateCoordinator._async_update_data`
(`__init__.py` lines 40-56). `fetch` is the outcome of
`self.client.get_all_evses()`: `Except.error` when it raises. On failure the
method returns `self.data if hasattr(self, 'data') and self.data else {}`
(Python truthiness: a missing or empty `self.data` yields `{}`). -/
def async_update_data (fetch : Except Unit DeviceMapping)
    (st : CoordinatorState) : DeviceMapping :=
  match fetch with
  | .ok evses => if evses.isEmpty then [] else evses
  | .error _ =>
    match st.data with
    | some d => if d.isEmpty then [] else d
    | none => []

/-- One poll tick: the framework stores the value returned by
`_async_update_data` (which never raises) as the new `self.data`. -/
def coordinator_tick (fetch : Except Unit DeviceMapping)
    (st : CoordinatorState) : CoordinatorState :=
  { data := some (async_update_data fetch st) }

/-- The coordinator state before the first refresh. -/
def initialCoordinatorState : CoordinatorState := ⟨none⟩

/-- Claim C6: a tick whose fetch raises republishes the previously stored
mapping unchanged instead of propagating the failure, and a tick whose
fetch succeeds with an empty mapping publishes the empty mapping. -/
theorem coordinator_tick_degraded (st : CoordinatorState) :
    (∀ d : DeviceMapping, st.data = some d →
      (coordinator_tick (Except.error ()) st).data = some d) ∧
    (coordinator_tick (Except.ok []) st).data = some [] := by
  constructor
  · intro d hd
    cases d <;> simp [coordinator_tick, async_update_data, hd]
  · simp [coordinator_tick, async_update_data]

/-- Witness for C6. -/
theorem coordinator_tick_degraded_witness :
    ((⟨some [(FALLBACK_NAME, [])]⟩ : CoordinatorState).data =
      some [(FALLBACK_NAME, [])]) ∧
    (coordinator_tick (Except.error ())
      (⟨some [(FALLBACK_NAME, [])]⟩ : CoordinatorState)).data =
      some [(FALLBACK_NAME, [])] := by
  refine ⟨rfl, ?_⟩
  exact (coordinator_tick_degraded
    (⟨some [(FALLBACK_NAME, [])]⟩ : CoordinatorState)).1
    [(FALLBACK_NAME, [])] rfl

/-- Counterexample to claim C7: after an empty successful tick, a failing
tick and a further empty successful tick leave the coordinator in
identical stored states, so the outcome of the last fetch is not
distinguishable from stored state (the coordinator keeps no success flag). -/
theorem coordinator_outcomes_indistinguishable :
    coordinator_tick (Except.error ())
        (coordinator_tick (Except.ok []) initialCoordinatorState) =
      coordinator_tick (Except.ok [])
        (coordinator_tick (Except.ok []) initialCoordinatorState) := rfl

/-- Amended claim C7: when the previously stored mapping is nonempty, a
failing tick (which republishes it) and an empty successful tick (which
publishes the empty mapping) leave distinguishable stored states; the
coordinator stores no last-fetch-succeeded flag, so with an empty stored
mapping the two outcomes coincide. -/
theorem coordinator_distinguishable_when_nonempty (st : CoordinatorState)
    (d : DeviceMapping) (hd : st.data = some d) (hne : d ≠ []) :
    (coordinator_tick (Except.error ()) st).data = some d ∧
    (coordinator_tick (Except.ok []) st).data = some [] ∧
    coordinator_tick (Except.error ()) st ≠
      coordinator_tick (Except.ok []) st := by
  have h1 : (coordinator_tick (Except.error ()) st).data = some d := by
    cases d with
    | nil => exact absurd rfl hne
    | cons x xs => simp [coordinator_tick, async_update_data, hd]
  have h2 : (coordinator_tick (Except.ok []) st).data = some [] := by
    simp [coordinator_tick, async_update_data]
  refine ⟨h1, h2, fun hcontra => ?_⟩
  have := congrArg CoordinatorState.data hcontra
  rw [h1, h2] at this
  exact hne (by injection this)

/-- Witness for the amended claim C7. -/
theorem coordinator_distinguishable_when_nonempty_witness :
    ((⟨some [(FALLBACK_NAME, [])]⟩ : CoordinatorState).data =
      some [(FALLBACK_NAME, [])]) ∧
    ([(FALLBACK_NAME, ([] : List (String × Value)))] ≠
      ([] : DeviceMapping)) ∧
    coordinator_tick (Except.error ())
        (⟨some [(FALLBACK_NAME, [])]⟩ : CoordinatorState) ≠
      coordinator_tick (Except.ok [])
        (⟨some [(FALLBACK_NAME, [])]⟩ : CoordinatorState) := by
  refine ⟨rfl, by decide, ?_⟩
  exact (coordinator_distinguishable_when_nonempty
    (⟨some [(FALLBACK_NAME, [])]⟩ : CoordinatorState)
    [(FALLBACK_NAME, [])] rfl (by decide)).2.2
